import Mathlib

/-!
Shallow embedding of the ownership / reference-counting layer of this
pyo3 fork (`src/instance.rs`): the owning handle `Py<T>`, the
type-erased handle `PyObject`, the deferred-release registry and the
GIL token discipline, together with proofs of the specification's
testable properties.  Pointers are modelled as natural numbers with `0`
as the null pointer; reference counts are integers (`Py_REFCNT` is an
`isize`).
-/

/-- Global state of the foreign runtime as seen by the ownership layer:
per-pointer reference counts, per-pointer runtime type ids, the
last-raised error state, the deferred-release registry queue, and the
GIL acquisition depth (`0` = no token held). -/
structure FFIState where
  refcnt : Nat → Int
  typeOf : Nat → Nat
  lastError : Nat
  registry : List Nat
  gilCount : Nat

/-- `Py<T>` (instance.rs:88): transparent wrapper around a non-null
foreign object pointer; the phantom type parameter has no runtime
content, so the wrapped raw pointer is the whole representation. -/
structure Py where
  ptr : Nat
deriving DecidableEq

/-- `PyObject` (`object.rs`): the type-erased owning handle, with the
same transparent pointer representation as `Py`. -/
structure PyObject where
  ptr : Nat
deriving DecidableEq

/-- Error values crossing this layer: a fetched foreign error state, or
a type mismatch during extraction. -/
inductive PyErr where
  | fetched (state : Nat)
  | typeMismatch
deriving DecidableEq

/-- Modelled from the spec: the foreign-call surface
`increment(identifier)` (`ffi::Py_INCREF`), which is not among the
extracted sources.  Adds one to the identifier's reference count and
changes nothing else. -/
def incref (t : Nat) (s : FFIState) : FFIState :=
  { s with refcnt := fun q => if q = t then s.refcnt q + 1 else s.refcnt q }

/-- Modelled from the spec: the foreign-call surface
`decrement(identifier)` (`ffi::Py_DECREF`), which is not among the
extracted sources. -/
def decref (t : Nat) (s : FFIState) : FFIState :=
  { s with refcnt := fun q => if q = t then s.refcnt q - 1 else s.refcnt q }

/-- Number of occurrences of a pointer in a list, used to account for
pending entries of the deferred-release registry. -/
def countOf (p : Nat) : List Nat → Nat
  | [] => 0
  | q :: l => (if q = p then 1 else 0) + countOf p l

/-- Modelled from the spec: draining the `DeferredReleaseRegistry`
(`pythonrun`, not among the extracted sources): every queued identifier
receives exactly one decrement, in queue order, and the queue is left
empty. -/
def drain (s : FFIState) : FFIState :=
  { s.registry.foldl (fun st q => decref q st) s with registry := [] }

/-- Modelled from the spec: `pythonrun::register_pointer`, the release
routine called by `Drop for Py<T>` and not among the extracted sources.
It releases one unit: with a token available the decrement is
immediate, otherwise the identifier is enqueued for deferred release. -/
def register_pointer (p : Nat) (s : FFIState) : FFIState :=
  if 0 < s.gilCount then decref p s else { s with registry := s.registry ++ [p] }

/-- Modelled from the spec: token acquisition (`Python::acquire_gil`,
not among the extracted sources): the acquisition depth rises and the
deferred-release registry is drained. -/
def acquire_gil (s : FFIState) : FFIState :=
  drain { s with gilCount := s.gilCount + 1 }

/-- Modelled from the spec: token release (dropping the GIL guard, not
among the extracted sources): the registry is drained and the
acquisition depth falls. -/
def release_gil (s : FFIState) : FFIState :=
  { drain s with gilCount := s.gilCount - 1 }

/-- Modelled from the spec: `Python::xdecref` (`python.rs`, not among
the extracted sources): decrement unless the pointer is null. -/
def Python.xdecref (p : Nat) (s : FFIState) : FFIState :=
  if p = 0 then s else decref p s

/-- Modelled from the spec: `PyErr::fetch(py)` (`err.rs`, not among the
extracted sources): captures the foreign runtime's last-raised error
state. -/
def PyErr.fetch (s : FFIState) : PyErr :=
  PyErr.fetched s.lastError

/-- `Py::from_owned_ptr` (instance.rs:100): wraps the pointer, taking
ownership of the reference-count unit the caller already holds; no
foreign call is made, so the runtime state is untouched. -/
def Py.from_owned_ptr (p : Nat) (s : FFIState) : Py × FFIState :=
  (⟨p⟩, s)

/-- `Py::from_owned_ptr_or_err` (instance.rs:125): on a null pointer it
returns `Err(PyErr::fetch(py))`, otherwise it wraps the pointer; the
runtime state is untouched either way. -/
def Py.from_owned_ptr_or_err (p : Nat) (s : FFIState) : Except PyErr Py × FFIState :=
  if p = 0 then (Except.error (PyErr.fetch s), s) else (Except.ok ⟨p⟩, s)

/-- `Py::from_borrowed_ptr` (instance.rs:136): `Py_INCREF` on the
pointer, then wrap it. -/
def Py.from_borrowed_ptr (p : Nat) (s : FFIState) : Py × FFIState :=
  (⟨p⟩, incref p s)

/-- `Py::get_refcnt` (instance.rs:147): observes `Py_REFCNT`. -/
def Py.get_refcnt (h : Py) (s : FFIState) : Int :=
  s.refcnt h.ptr

/-- `Py::clone_ref` (instance.rs:153): `Py::from_borrowed_ptr` on the
own pointer; the `Python` token argument is a pure capability witness
and is ignored. -/
def Py.clone_ref (h : Py) (s : FFIState) : Py × FFIState :=
  Py.from_borrowed_ptr h.ptr s

/-- `IntoPyPointer::into_ptr` for `Py<T>` (instance.rs:281): returns the
raw pointer and `mem::forget`s the handle.  It is a pure function of the
handle with no access to the runtime state: no decrement happens and no
drop runs. -/
def Py.into_ptr (h : Py) : Nat :=
  h.ptr

/-- `Py::into_non_null` (instance.rs:160): returns the raw pointer and
`mem::forget`s the handle, like `into_ptr`. -/
def Py.into_non_null (h : Py) : Nat :=
  h.ptr

/-- `Drop for Py<T>` (instance.rs:296): calls
`pythonrun::register_pointer` on the wrapped pointer. -/
def Py.drop (h : Py) (s : FFIState) : FFIState :=
  register_pointer h.ptr s

/-- Modelled from the spec: `PyObject::from_borrowed_ptr` (`object.rs`,
not among the extracted sources): borrowed-to-owned promotion, one
increment then wrap. -/
def PyObject.from_borrowed_ptr (p : Nat) (s : FFIState) : PyObject × FFIState :=
  (⟨p⟩, incref p s)

/-- Modelled from the spec: `PyObject::from_not_null` (`object.rs`, not
among the extracted sources): wraps an already-owned non-null pointer
with no reference-count change. -/
def PyObject.from_not_null (p : Nat) : PyObject :=
  ⟨p⟩

/-- `From<Py<T>> for PyObject` (instance.rs:304):
`PyObject::from_not_null(ob.into_non_null())`, a pure representation
change that consumes the source handle. -/
def PyObject.from_py (h : Py) : PyObject :=
  PyObject.from_not_null (Py.into_non_null h)

/-- Modelled from the spec: dropping the erased handle (`object.rs`, not
among the extracted sources) releases its one unit exactly as
`Drop for Py<T>` does, through `register_pointer`. -/
def PyObject.drop (ob : PyObject) (s : FFIState) : FFIState :=
  register_pointer ob.ptr s

/-- `ToPyObject for Py<T>` (instance.rs:253):
`PyObject::from_borrowed_ptr(py, self.as_ptr())`, the non-consuming
erasure that performs one increment. -/
def Py.to_object (h : Py) (s : FFIState) : PyObject × FFIState :=
  PyObject.from_borrowed_ptr h.ptr s

/-- Modelled from the spec: the typed borrow `ob.extract::<&T>()`
(`ObjectProtocol`, `objectprotocol.rs`, not among the extracted
sources): a runtime type check yielding the borrowed pointer when the
object is a `T` and a recoverable type-mismatch error otherwise, with
no reference-count effect. -/
def downcast_borrow (t : Nat) (ob : PyObject) (s : FFIState) : Except PyErr Nat :=
  if s.typeOf ob.ptr = t then Except.ok ob.ptr else Except.error PyErr.typeMismatch

/-- `FromPyObject for Py<T>::extract` (instance.rs:353): typed borrow
first, then `Py::from_borrowed_ptr` on the borrowed pointer. -/
def Py.extract (t : Nat) (ob : PyObject) (s : FFIState) : Except PyErr Py × FFIState :=
  match downcast_borrow t ob s with
  | Except.ok q => (Except.ok (Py.from_borrowed_ptr q s).1, (Py.from_borrowed_ptr q s).2)
  | Except.error e => (Except.error e, s)

/-- Compile-time layout data of a tag type `T`: the `PyTypeInfo::OFFSET`
constant and whether `T` is a `PyNativeType`, the capability which
statically decides which `AsPyRefDispatch` impl the compiler selects. -/
structure PyTypeInfo where
  offset : Int
  native : Bool
deriving DecidableEq

/-- `AsPyRefDispatch::as_ref_dispatch`, default impl (instance.rs:214):
the returned reference sits at
`(self.as_ptr() as *mut u8).offset(T::OFFSET)`, the raw pointer plus
the per-type compile-time offset. -/
def as_ref_dispatch_default (ti : PyTypeInfo) (h : Py) : Int :=
  (h.ptr : Int) + ti.offset

/-- `AsPyRefDispatch` impl for native types (instance.rs:231): the
returned reference is `&*(self as *const Py<T> as *const T)`, the
handle itself reinterpreted in place — so its address is the address
the handle is stored at, not the wrapped raw pointer. -/
def as_ref_dispatch_native (selfAddr : Nat) (_h : Py) : Int :=
  (selfAddr : Int)

/-- `AsPyRefDispatch::as_mut_dispatch`, default impl (instance.rs:220):
same address computation as `as_ref_dispatch_default`. -/
def as_mut_dispatch_default (ti : PyTypeInfo) (h : Py) : Int :=
  (h.ptr : Int) + ti.offset

/-- `AsPyRefDispatch::as_mut_dispatch` for native types
(instance.rs:234): `&mut *(self as *mut _ as *mut T)`, the handle
reinterpreted in place. -/
def as_mut_dispatch_native (selfAddr : Nat) (_h : Py) : Int :=
  (selfAddr : Int)

/-- Address of the reference produced by `Py::as_ref` (instance.rs:244):
the statically selected dispatch impl, decided by the per-type `native`
capability alone and by no runtime data. -/
def as_ref_addr (ti : PyTypeInfo) (selfAddr : Nat) (h : Py) : Int :=
  if ti.native then as_ref_dispatch_native selfAddr h else as_ref_dispatch_default ti h

/-- Address of the reference produced by `Py::as_mut` (instance.rs:248). -/
def as_mut_addr (ti : PyTypeInfo) (selfAddr : Nat) (h : Py) : Int :=
  if ti.native then as_mut_dispatch_native selfAddr h else as_mut_dispatch_default ti h

/-- `AsPyRef::into_py` (instance.rs:58): acquire the GIL, call the
closure on the derived view, `py.xdecref(self)` through
`IntoPyPointer::into_ptr`, and let the guard release the GIL on scope
exit. -/
def Py.into_py {R : Type} (ti : PyTypeInfo) (selfAddr : Nat) (h : Py) (f : Int → R) (s : FFIState) : R × FFIState :=
  let s1 := acquire_gil s
  let result := f (as_ref_addr ti selfAddr h)
  let s2 := Python.xdecref (Py.into_ptr h) s1
  (result, release_gil s2)

/-- `AsPyRef::into_mut_py` (instance.rs:71): like `into_py` on the
mutable view. -/
def Py.into_mut_py {R : Type} (ti : PyTypeInfo) (selfAddr : Nat) (h : Py) (f : Int → R) (s : FFIState) : R × FFIState :=
  let s1 := acquire_gil s
  let result := f (as_mut_addr ti selfAddr h)
  let s2 := Python.xdecref (Py.into_ptr h) s1
  (result, release_gil s2)

/-- Configuration of the single-object balance game: number of live
handles on the object, number of raw owned units floating outside any
handle (produced by `into_ptr` and consumable by `from_owned_ptr`), and
the runtime state. -/
structure Cfg where
  live : Nat
  spare : Nat
  st : FFIState

/-- One operation of a balance sequence on the fixed object: wrap a
floating owned unit, promote a borrow, duplicate or drop the `i`-th
live handle, unwrap the `i`-th handle into a floating unit, or acquire
or release the token. -/
inductive SeqOp where
  | fromOwned
  | fromBorrowed
  | dup (i : Nat)
  | drop (i : Nat)
  | intoRaw (i : Nat)
  | acquire
  | release
deriving DecidableEq

/-- Effect of one balance operation, each delegating to the embedded
source operation on pointer `p`. -/
def stepOp (p : Nat) (c : Cfg) : SeqOp → Cfg
  | SeqOp.fromOwned =>
      { c with live := c.live + 1, spare := c.spare - 1, st := (Py.from_owned_ptr p c.st).2 }
  | SeqOp.fromBorrowed =>
      { c with live := c.live + 1, st := (Py.from_borrowed_ptr p c.st).2 }
  | SeqOp.dup _ =>
      { c with live := c.live + 1, st := (Py.clone_ref ⟨p⟩ c.st).2 }
  | SeqOp.drop _ =>
      { c with live := c.live - 1, st := Py.drop ⟨p⟩ c.st }
  | SeqOp.intoRaw _ =>
      { c with live := c.live - 1, spare := c.spare + 1 }
  | SeqOp.acquire =>
      { c with st := acquire_gil c.st }
  | SeqOp.release =>
      { c with st := release_gil c.st }

/-- Enabledness of a balance operation: handle indices must refer to a
live handle, `fromOwned` needs a floating owned unit to wrap, and
`release` needs a held token. -/
def enabled (c : Cfg) : SeqOp → Bool
  | SeqOp.fromOwned => decide (0 < c.spare)
  | SeqOp.fromBorrowed => true
  | SeqOp.dup i => decide (i < c.live)
  | SeqOp.drop i => decide (i < c.live)
  | SeqOp.intoRaw i => decide (i < c.live)
  | SeqOp.acquire => true
  | SeqOp.release => decide (0 < c.st.gilCount)

/-- Run a balance sequence from a configuration. -/
def runOps (p : Nat) : List SeqOp → Cfg → Cfg
  | [], c => c
  | op :: rest, c => runOps p rest (stepOp p c op)

/-- Well-formedness of a balance sequence: every operation is enabled
where it fires. -/
def wfOps (p : Nat) : List SeqOp → Cfg → Bool
  | [], _ => true
  | op :: rest, c => enabled c op && wfOps p rest (stepOp p c op)

/-- Conserved quantity of the balance game: the object's reference
count minus its live handles, floating owned units and pending registry
entries. -/
def opMeasure (p : Nat) (c : Cfg) : Int :=
  c.st.refcnt p - (c.live : Int) - (c.spare : Int) - (countOf p c.st.registry : Int)

/-- A concrete runtime state with a held token, used to instantiate the
theorems. -/
def sGil : FFIState :=
  { refcnt := fun _ => 5, typeOf := fun _ => 1, lastError := 7, registry := [], gilCount := 1 }

/-- A concrete runtime state with no token held, used to instantiate
the theorems. -/
def sNoGil : FFIState :=
  { refcnt := fun _ => 5, typeOf := fun _ => 1, lastError := 7, registry := [], gilCount := 0 }

/-! Helper lemmas about the foreign-call surface and the registry. -/

theorem incref_refcnt_self (t : Nat) (s : FFIState) :
    (incref t s).refcnt t = s.refcnt t + 1 := by
  simp [incref]

theorem incref_refcnt_other (t q : Nat) (s : FFIState) (h : q ≠ t) :
    (incref t s).refcnt q = s.refcnt q := by
  simp [incref, h]

theorem incref_registry (t : Nat) (s : FFIState) :
    (incref t s).registry = s.registry := rfl

theorem incref_gilCount (t : Nat) (s : FFIState) :
    (incref t s).gilCount = s.gilCount := rfl

theorem decref_refcnt_self (t : Nat) (s : FFIState) :
    (decref t s).refcnt t = s.refcnt t - 1 := by
  simp [decref]

theorem decref_refcnt_other (t q : Nat) (s : FFIState) (h : q ≠ t) :
    (decref t s).refcnt q = s.refcnt q := by
  simp [decref, h]

theorem decref_refcnt (t q : Nat) (s : FFIState) :
    (decref t s).refcnt q = if q = t then s.refcnt q - 1 else s.refcnt q := rfl

theorem decref_registry (t : Nat) (s : FFIState) :
    (decref t s).registry = s.registry := rfl

theorem countOf_append (p : Nat) (l1 l2 : List Nat) :
    countOf p (l1 ++ l2) = countOf p l1 + countOf p l2 := by
  induction l1 with
  | nil => simp [countOf]
  | cons q l ih => simp [countOf, ih, Nat.add_assoc]

theorem foldl_decref_refcnt (p : Nat) (l : List Nat) :
    ∀ s : FFIState,
      (l.foldl (fun st q => decref q st) s).refcnt p = s.refcnt p - (countOf p l : Int) := by
  induction l with
  | nil => intro s; simp [countOf]
  | cons q l ih =>
      intro s
      have hstep : (List.foldl (fun st q => decref q st) s (q :: l))
          = List.foldl (fun st q => decref q st) (decref q s) l := rfl
      rw [hstep, ih (decref q s), decref_refcnt]
      rcases eq_or_ne p q with hq | hq
      · subst hq
        simp [countOf]
        ring
      · simp [countOf, hq, Ne.symm hq]

theorem foldl_decref_registry (l : List Nat) :
    ∀ s : FFIState,
      (l.foldl (fun st q => decref q st) s).registry = s.registry := by
  induction l with
  | nil => intro s; rfl
  | cons q l ih => intro s; exact ih (decref q s)

theorem drain_refcnt (s : FFIState) (p : Nat) :
    (drain s).refcnt p = s.refcnt p - (countOf p s.registry : Int) := by
  show ((s.registry.foldl (fun st q => decref q st) s)).refcnt p = _
  exact foldl_decref_refcnt p s.registry s

theorem drain_registry (s : FFIState) : (drain s).registry = [] := rfl

theorem acquire_gil_refcnt (s : FFIState) (p : Nat) :
    (acquire_gil s).refcnt p = s.refcnt p - (countOf p s.registry : Int) := by
  show (drain { s with gilCount := s.gilCount + 1 }).refcnt p = _
  rw [drain_refcnt]

theorem acquire_gil_registry (s : FFIState) : (acquire_gil s).registry = [] := rfl

theorem release_gil_refcnt (s : FFIState) (p : Nat) :
    (release_gil s).refcnt p = s.refcnt p - (countOf p s.registry : Int) := by
  show (drain s).refcnt p = _
  exact drain_refcnt s p

theorem release_gil_registry (s : FFIState) : (release_gil s).registry = [] := rfl

/-! Preservation of the balance measure. -/

theorem stepOp_measure (p : Nat) (c : Cfg) (op : SeqOp) (h : enabled c op = true) :
    opMeasure p (stepOp p c op) = opMeasure p c := by
  cases op with
  | fromOwned =>
      have hs : 0 < c.spare := by simpa [enabled] using h
      simp [stepOp, opMeasure, Py.from_owned_ptr]
      omega
  | fromBorrowed =>
      simp [stepOp, opMeasure, Py.from_borrowed_ptr, incref_refcnt_self, incref_registry]
  | dup i =>
      simp [stepOp, opMeasure, Py.clone_ref, Py.from_borrowed_ptr,
        incref_refcnt_self, incref_registry]
  | drop i =>
      have hl : 0 < c.live := by
        have hi : i < c.live := by simpa [enabled] using h
        omega
      by_cases hg : 0 < c.st.gilCount
      · simp [stepOp, opMeasure, Py.drop, register_pointer, hg,
          decref_refcnt_self, decref_registry]
        omega
      · simp [stepOp, opMeasure, Py.drop, register_pointer, hg, countOf_append, countOf]
        omega
  | intoRaw i =>
      have hl : 0 < c.live := by
        have hi : i < c.live := by simpa [enabled] using h
        omega
      simp [stepOp, opMeasure]
      omega
  | acquire =>
      simp [stepOp, opMeasure, acquire_gil_refcnt, acquire_gil_registry, countOf]
      omega
  | release =>
      simp [stepOp, opMeasure, release_gil_refcnt, release_gil_registry, countOf]
      omega

theorem runOps_measure (p : Nat) (ops : List SeqOp) :
    ∀ c : Cfg, wfOps p ops c = true → opMeasure p (runOps p ops c) = opMeasure p c := by
  induction ops with
  | nil => intro c _; rfl
  | cons op rest ih =>
      intro c hwf
      have hwf2 : enabled c op = true ∧ wfOps p rest (stepOp p c op) = true := by
        simpa [wfOps, Bool.and_eq_true] using hwf
      have hrun : runOps p (op :: rest) c = runOps p rest (stepOp p c op) := rfl
      rw [hrun, ih (stepOp p c op) hwf2.2, stepOp_measure p c op hwf2.1]

/-! Claim theorems. -/

/-- C1: for every well-formed sequence of
`from_owned_ptr` / `from_borrowed_ptr` / `clone_ref` / drop operations
(closed under `into_ptr`, the only in-layer source of the raw owned
units `from_owned_ptr` wraps, and under token acquisition and release)
performed on a single foreign object, once all handles are dropped, no
raw owned unit is left floating, and the deferred-release registry is
drained by a token acquisition, the object's observed reference count
equals the count before the sequence began. -/
theorem balance_invariant (p : Nat) (s0 : FFIState) (ops : List SeqOp)
    (hreg : countOf p s0.registry = 0)
    (hwf : wfOps p ops { live := 0, spare := 0, st := s0 } = true)
    (hlive : (runOps p ops { live := 0, spare := 0, st := s0 }).live = 0)
    (hspare : (runOps p ops { live := 0, spare := 0, st := s0 }).spare = 0) :
    (acquire_gil (runOps p ops { live := 0, spare := 0, st := s0 }).st).refcnt p
      = s0.refcnt p := by
  have hM := runOps_measure p ops { live := 0, spare := 0, st := s0 } hwf
  rw [acquire_gil_refcnt]
  simp [opMeasure, hlive, hspare, hreg] at hM
  omega

/-- Witness for `balance_invariant`: promote a borrow, then drop the
handle with no token held; the next acquisition drains the queued
release and restores the initial count. -/
theorem balance_invariant_witness :
    countOf 3 sNoGil.registry = 0 ∧
    wfOps 3 [SeqOp.fromBorrowed, SeqOp.drop 0] { live := 0, spare := 0, st := sNoGil } = true ∧
    (acquire_gil
        (runOps 3 [SeqOp.fromBorrowed, SeqOp.drop 0]
          { live := 0, spare := 0, st := sNoGil }).st).refcnt 3
      = sNoGil.refcnt 3 :=
  ⟨by decide, by decide,
    balance_invariant 3 sNoGil [SeqOp.fromBorrowed, SeqOp.drop 0]
      (by decide) (by decide) (by decide) (by decide)⟩

/-- C2: dropping an owning handle releases exactly one unit, and the
path depends on token availability: with a token held the decrement is
immediate and nothing is enqueued; with no token held the count is
untouched at drop time, the pointer is enqueued once at the end of the
registry, and the next token acquisition performs exactly that one
extra decrement. -/
theorem drop_release_paths (h : Py) (s : FFIState) :
    (0 < s.gilCount →
      Py.drop h s = decref h.ptr s ∧
      (Py.drop h s).refcnt h.ptr = s.refcnt h.ptr - 1 ∧
      (Py.drop h s).registry = s.registry) ∧
    (s.gilCount = 0 →
      (Py.drop h s).refcnt h.ptr = s.refcnt h.ptr ∧
      (Py.drop h s).registry = s.registry ++ [h.ptr] ∧
      (acquire_gil (Py.drop h s)).refcnt h.ptr = (acquire_gil s).refcnt h.ptr - 1) := by
  constructor
  · intro hg
    refine ⟨by simp [Py.drop, register_pointer, hg], ?_, ?_⟩
    · simp [Py.drop, register_pointer, hg, decref_refcnt_self]
    · simp [Py.drop, register_pointer, hg, decref_registry]
  · intro hg
    have hg0 : ¬ 0 < s.gilCount := by omega
    refine ⟨by simp [Py.drop, register_pointer, hg0], by simp [Py.drop, register_pointer, hg0], ?_⟩
    rw [acquire_gil_refcnt, acquire_gil_refcnt]
    have hr : (Py.drop h s).registry = s.registry ++ [h.ptr] := by
      simp [Py.drop, register_pointer, hg0]
    have hc : (Py.drop h s).refcnt h.ptr = s.refcnt h.ptr := by
      simp [Py.drop, register_pointer, hg0]
    rw [hr, hc, countOf_append]
    simp [countOf]
    omega

/-- Witness for `drop_release_paths`: both release paths at concrete
states, a held token for the immediate decrement and none for the
enqueue. -/
theorem drop_release_paths_witness :
    (0 < sGil.gilCount ∧ (Py.drop ⟨3⟩ sGil).refcnt 3 = sGil.refcnt 3 - 1) ∧
    (sNoGil.gilCount = 0 ∧ (Py.drop ⟨3⟩ sNoGil).registry = sNoGil.registry ++ [3]) :=
  ⟨⟨by decide, ((drop_release_paths ⟨3⟩ sGil).1 (by decide)).2.1⟩,
    ⟨by decide, ((drop_release_paths ⟨3⟩ sNoGil).2 (by decide)).2.1⟩⟩

/-- C3: `from_owned_ptr_or_err` on a null pointer returns an error
carrying the runtime's last-raised error state, creates no handle and
leaves the state (so every reference count) unchanged; on a non-null
pointer it returns `Ok` with a handle wrapping exactly that pointer,
again with the state unchanged. -/
theorem from_owned_ptr_or_err_spec (p : Nat) (s : FFIState) :
    (p = 0 → Py.from_owned_ptr_or_err p s = (Except.error (PyErr.fetch s), s)) ∧
    (p ≠ 0 → Py.from_owned_ptr_or_err p s = (Except.ok ⟨p⟩, s)) := by
  constructor
  · intro hp
    simp [Py.from_owned_ptr_or_err, hp]
  · intro hp
    simp [Py.from_owned_ptr_or_err, hp]

/-- Witness for `from_owned_ptr_or_err_spec`: a null and a non-null
pointer at a concrete state. -/
theorem from_owned_ptr_or_err_witness :
    Py.from_owned_ptr_or_err 0 sGil = (Except.error (PyErr.fetch sGil), sGil) ∧
    Py.from_owned_ptr_or_err 5 sGil = (Except.ok ⟨5⟩, sGil) :=
  ⟨(from_owned_ptr_or_err_spec 0 sGil).1 rfl,
    (from_owned_ptr_or_err_spec 5 sGil).2 (by decide)⟩

/-- C4: `clone_ref` is exactly `from_borrowed_ptr` on the own pointer:
it performs one increment on the object, returns a second handle equal
to the original under the handle's identity equality, touches no other
count and not the registry, and consumes nothing (the original handle
value is unchanged and keeps its own unit). -/
theorem clone_ref_spec (h : Py) (s : FFIState) :
    Py.clone_ref h s = Py.from_borrowed_ptr h.ptr s ∧
    (Py.clone_ref h s).1 = h ∧
    (Py.clone_ref h s).2.refcnt h.ptr = s.refcnt h.ptr + 1 ∧
    (∀ q, q ≠ h.ptr → (Py.clone_ref h s).2.refcnt q = s.refcnt q) ∧
    (Py.clone_ref h s).2.registry = s.registry := by
  refine ⟨rfl, rfl, ?_, ?_, rfl⟩
  · exact incref_refcnt_self h.ptr s
  · intro q hq
    exact incref_refcnt_other h.ptr q s hq

/-- Witness for `clone_ref_spec`: duplicating a handle on pointer `3`
leaves the count of pointer `4` alone. -/
theorem clone_ref_witness :
    (4 : Nat) ≠ (⟨3⟩ : Py).ptr ∧ (Py.clone_ref ⟨3⟩ sGil).2.refcnt 4 = sGil.refcnt 4 :=
  ⟨by decide, (clone_ref_spec ⟨3⟩ sGil).2.2.2.1 4 (by decide)⟩

/-- C5: `into_ptr` consumes the handle without drop or decrement and
returns the raw pointer unchanged; `from_owned_ptr` on that pointer
reconstructs a handle equal to the original with the state (so every
reference count) untouched, and dropping the reconstruction releases
exactly one unit — an immediate single decrement under a token, a
single queued entry otherwise — so no double free occurs. -/
theorem into_ptr_round_trip (h : Py) (s : FFIState) :
    Py.into_ptr h = h.ptr ∧
    Py.from_owned_ptr (Py.into_ptr h) s = (h, s) ∧
    (0 < s.gilCount →
      (Py.drop (Py.from_owned_ptr (Py.into_ptr h) s).1 s).refcnt h.ptr
          = s.refcnt h.ptr - 1 ∧
      (Py.drop (Py.from_owned_ptr (Py.into_ptr h) s).1 s).registry = s.registry) ∧
    (s.gilCount = 0 →
      (Py.drop (Py.from_owned_ptr (Py.into_ptr h) s).1 s).refcnt h.ptr = s.refcnt h.ptr ∧
      (Py.drop (Py.from_owned_ptr (Py.into_ptr h) s).1 s).registry
          = s.registry ++ [h.ptr]) := by
  refine ⟨rfl, rfl, ?_, ?_⟩
  · intro hg
    constructor
    · simp [Py.from_owned_ptr, Py.into_ptr, Py.drop, register_pointer, hg, decref_refcnt_self]
    · simp [Py.from_owned_ptr, Py.into_ptr, Py.drop, register_pointer, hg, decref_registry]
  · intro hg
    have hg0 : ¬ 0 < s.gilCount := by omega
    constructor
    · simp [Py.from_owned_ptr, Py.into_ptr, Py.drop, register_pointer, hg0]
    · simp [Py.from_owned_ptr, Py.into_ptr, Py.drop, register_pointer, hg0]

/-- Witness for `into_ptr_round_trip`: the unwrap/rewrap round trip on
pointer `3` under a held token, whose later drop decrements once. -/
theorem into_ptr_round_trip_witness :
    Py.from_owned_ptr (Py.into_ptr ⟨3⟩) sGil = (⟨3⟩, sGil) ∧
    0 < sGil.gilCount ∧
    (Py.drop (Py.from_owned_ptr (Py.into_ptr ⟨3⟩) sGil).1 sGil).refcnt 3
      = sGil.refcnt 3 - 1 :=
  ⟨(into_ptr_round_trip ⟨3⟩ sGil).2.1, by decide,
    ((into_ptr_round_trip ⟨3⟩ sGil).2.2.1 (by decide)).1⟩

/-- C6: erasing `Py<T>` into `PyObject` consumes the source as a pure
representation change on the same pointer with no reference-count
effect; extracting back under a matching runtime type succeeds with the
original handle at the cost of the one increment that funds the
still-live erased handle, and dropping that erased handle under a token
restores the starting count exactly. -/
theorem erasure_round_trip (h : Py) (t : Nat) (s : FFIState)
    (hty : s.typeOf h.ptr = t) :
    (PyObject.from_py h).ptr = h.ptr ∧
    (Py.extract t (PyObject.from_py h) s).1 = Except.ok h ∧
    (Py.extract t (PyObject.from_py h) s).2.refcnt h.ptr = s.refcnt h.ptr + 1 ∧
    (0 < s.gilCount →
      (PyObject.drop (PyObject.from_py h)
          ((Py.extract t (PyObject.from_py h) s).2)).refcnt h.ptr
        = s.refcnt h.ptr) := by
  have hob : (PyObject.from_py h).ptr = h.ptr := rfl
  have hdc : downcast_borrow t (PyObject.from_py h) s = Except.ok h.ptr := by
    simp [downcast_borrow, hob, hty]
  have hex : Py.extract t (PyObject.from_py h) s = (Except.ok ⟨h.ptr⟩, incref h.ptr s) := by
    simp [Py.extract, hdc, Py.from_borrowed_ptr]
  refine ⟨rfl, by rw [hex], ?_, ?_⟩
  · rw [hex]
    exact incref_refcnt_self h.ptr s
  · intro hg
    rw [hex]
    have hgi : 0 < (incref h.ptr s).gilCount := by
      rw [incref_gilCount]
      exact hg
    show (register_pointer h.ptr (incref h.ptr s)).refcnt h.ptr = s.refcnt h.ptr
    simp [register_pointer, hgi, decref_refcnt_self, incref_refcnt_self]

/-- Witness for `erasure_round_trip`: the round trip on pointer `3`
under matching type id `1`; the count rises by the erased handle's unit
and dropping that handle under the held token restores it. -/
theorem erasure_round_trip_witness :
    sGil.typeOf (⟨3⟩ : Py).ptr = 1 ∧
    0 < sGil.gilCount ∧
    (Py.extract 1 (PyObject.from_py ⟨3⟩) sGil).1 = Except.ok ⟨3⟩ ∧
    (PyObject.drop (PyObject.from_py ⟨3⟩)
        ((Py.extract 1 (PyObject.from_py ⟨3⟩) sGil).2)).refcnt 3
      = sGil.refcnt 3 :=
  ⟨by decide, by decide, (erasure_round_trip ⟨3⟩ 1 sGil (by decide)).2.1,
    (erasure_round_trip ⟨3⟩ 1 sGil (by decide)).2.2.2 (by decide)⟩

/-- C7: extraction is atomic on a type mismatch: when the erased handle
wraps an object of a different runtime type it returns the
type-mismatch error and leaves the state — every reference count and
the registry, hence the erased handle's own unit — completely
untouched; on a matching type it returns the typed handle after exactly
one increment on that pointer, all else unchanged. -/
theorem extract_type_mismatch_atomic (t : Nat) (ob : PyObject) (s : FFIState) :
    (s.typeOf ob.ptr ≠ t →
      (Py.extract t ob s).1 = Except.error PyErr.typeMismatch ∧
      (Py.extract t ob s).2 = s) ∧
    (s.typeOf ob.ptr = t →
      (Py.extract t ob s).1 = Except.ok (⟨ob.ptr⟩ : Py) ∧
      (Py.extract t ob s).2.refcnt ob.ptr = s.refcnt ob.ptr + 1 ∧
      (∀ q, q ≠ ob.ptr → (Py.extract t ob s).2.refcnt q = s.refcnt q) ∧
      (Py.extract t ob s).2.registry = s.registry) := by
  constructor
  · intro hty
    have hdc : downcast_borrow t ob s = Except.error PyErr.typeMismatch := by
      simp [downcast_borrow, hty]
    exact ⟨by simp [Py.extract, hdc], by simp [Py.extract, hdc]⟩
  · intro hty
    have hdc : downcast_borrow t ob s = Except.ok ob.ptr := by
      simp [downcast_borrow, hty]
    have hex : Py.extract t ob s = (Except.ok ⟨ob.ptr⟩, incref ob.ptr s) := by
      simp [Py.extract, hdc, Py.from_borrowed_ptr]
    refine ⟨by rw [hex], ?_, ?_, by rw [hex]; rfl⟩
    · rw [hex]
      exact incref_refcnt_self ob.ptr s
    · intro q hq
      rw [hex]
      exact incref_refcnt_other ob.ptr q s hq

/-- Witness for `extract_type_mismatch_atomic`: extracting type id `2`
from an erased handle whose object has type id `1` fails with the
type-mismatch error and returns the state unchanged. -/
theorem extract_type_mismatch_witness :
    sGil.typeOf (⟨3⟩ : PyObject).ptr ≠ 2 ∧
    (Py.extract 2 ⟨3⟩ sGil).1 = Except.error PyErr.typeMismatch ∧
    (Py.extract 2 ⟨3⟩ sGil).2 = sGil :=
  ⟨by decide, ((extract_type_mismatch_atomic 2 ⟨3⟩ sGil).1 (by decide)).1,
    ((extract_type_mismatch_atomic 2 ⟨3⟩ sGil).1 (by decide)).2⟩

/-- C8 counterexample: the claim that for a native type `as_ref`
returns a reference whose address is exactly the raw identifier fails
at a concrete instance — a handle wrapping raw pointer `5` but stored
at address `10` yields a reference at address `10`, the handle's own
address, not `5`. -/
theorem layout_dispatch_counterexample :
    ¬ as_ref_dispatch_native 10 ⟨5⟩ = (((⟨5⟩ : Py).ptr : Nat) : Int) := by
  decide

/-- C8 (amended): for a native (embedded-layout) type the dispatch impl
returns the handle reinterpreted in place — the reference's address is
the address the handle is stored at (the handle being a transparent
wrapper holding exactly the raw identifier), with no offset arithmetic
on the raw identifier — while for every other type the default impl
returns the raw identifier plus the compile-time constant `T::OFFSET`;
which impl applies is selected statically by the per-type `native`
capability alone, never by runtime data. -/
theorem layout_dispatch_addresses (ti : PyTypeInfo) (a : Nat) (h : Py) :
    as_ref_dispatch_native a h = (a : Int) ∧
    as_mut_dispatch_native a h = (a : Int) ∧
    as_ref_dispatch_default ti h = (h.ptr : Int) + ti.offset ∧
    as_mut_dispatch_default ti h = (h.ptr : Int) + ti.offset ∧
    (ti.native = true → as_ref_addr ti a h = as_ref_dispatch_native a h ∧
      as_mut_addr ti a h = as_mut_dispatch_native a h) ∧
    (ti.native = false → as_ref_addr ti a h = as_ref_dispatch_default ti h ∧
      as_mut_addr ti a h = as_mut_dispatch_default ti h) := by
  refine ⟨rfl, rfl, rfl, rfl, ?_, ?_⟩
  · intro hn
    exact ⟨by simp [as_ref_addr, hn], by simp [as_mut_addr, hn]⟩
  · intro hn
    exact ⟨by simp [as_ref_addr, hn], by simp [as_mut_addr, hn]⟩

/-- Witness for `layout_dispatch_addresses`: both capabilities at a
concrete type layout, handle and storage address. -/
theorem layout_dispatch_witness :
    (PyTypeInfo.mk 16 false).native = false ∧
    as_ref_addr ⟨16, false⟩ 10 ⟨5⟩ = as_ref_dispatch_default ⟨16, false⟩ ⟨5⟩ ∧
    (PyTypeInfo.mk 16 true).native = true ∧
    as_ref_addr ⟨16, true⟩ 10 ⟨5⟩ = as_ref_dispatch_native 10 ⟨5⟩ :=
  ⟨by decide, ((layout_dispatch_addresses ⟨16, false⟩ 10 ⟨5⟩).2.2.2.2.2 (by decide)).1,
    by decide, ((layout_dispatch_addresses ⟨16, true⟩ 10 ⟨5⟩).2.2.2.2.1 (by decide)).1⟩

/-- C9: `into_py` acquires a token, hands the derived view to the
closure, returns the closure's result, and afterwards releases the
handle's one unit by an immediate decrement under the already-held
token: relative to the post-acquisition state the object loses exactly
one unit, and the registry — drained at acquisition — stays empty, so
the deferred-release path is never taken; `into_mut_py` behaves
identically on the mutable view. -/
theorem into_py_release {R S : Type} (ti : PyTypeInfo) (a : Nat) (h : Py) (s : FFIState)
    (hnn : h.ptr ≠ 0) (f : Int → R) (g : Int → S) :
    (Py.into_py ti a h f s).1 = f (as_ref_addr ti a h) ∧
    (Py.into_py ti a h f s).2.refcnt h.ptr = (acquire_gil s).refcnt h.ptr - 1 ∧
    (Py.into_py ti a h f s).2.registry = [] ∧
    (Py.into_mut_py ti a h g s).1 = g (as_mut_addr ti a h) ∧
    (Py.into_mut_py ti a h g s).2.refcnt h.ptr = (acquire_gil s).refcnt h.ptr - 1 ∧
    (Py.into_mut_py ti a h g s).2.registry = [] := by
  have hx : Python.xdecref (Py.into_ptr h) (acquire_gil s) = decref h.ptr (acquire_gil s) := by
    simp [Python.xdecref, Py.into_ptr, hnn]
  have hreg2 : (decref h.ptr (acquire_gil s)).registry = [] := by
    rw [decref_registry, acquire_gil_registry]
  have hcnt : (release_gil (decref h.ptr (acquire_gil s))).refcnt h.ptr
      = (acquire_gil s).refcnt h.ptr - 1 := by
    rw [release_gil_refcnt, hreg2, decref_refcnt_self]
    simp [countOf]
  have hrreg : (release_gil (decref h.ptr (acquire_gil s))).registry = [] :=
    release_gil_registry _
  refine ⟨rfl, ?_, ?_, rfl, ?_, ?_⟩
  · show (release_gil (Python.xdecref (Py.into_ptr h) (acquire_gil s))).refcnt h.ptr = _
    rw [hx]
    exact hcnt
  · show (release_gil (Python.xdecref (Py.into_ptr h) (acquire_gil s))).registry = []
    rw [hx]
    exact hrreg
  · show (release_gil (Python.xdecref (Py.into_ptr h) (acquire_gil s))).refcnt h.ptr = _
    rw [hx]
    exact hcnt
  · show (release_gil (Python.xdecref (Py.into_ptr h) (acquire_gil s))).registry = []
    rw [hx]
    exact hrreg

/-- Witness for `into_py_release`: a concrete consuming call whose
closure result is returned and whose final registry is empty. -/
theorem into_py_release_witness :
    (⟨3⟩ : Py).ptr ≠ 0 ∧
    (Py.into_py ⟨16, false⟩ 10 ⟨3⟩ (fun v => v + 1) sNoGil).1
      = (fun v : Int => v + 1) (as_ref_addr ⟨16, false⟩ 10 ⟨3⟩) ∧
    (Py.into_py ⟨16, false⟩ 10 ⟨3⟩ (fun v : Int => v + 1) sNoGil).2.registry = [] :=
  ⟨by decide,
    (into_py_release ⟨16, false⟩ 10 ⟨3⟩ sNoGil (by decide)
      (fun v : Int => v + 1) (fun v : Int => v)).1,
    (into_py_release ⟨16, false⟩ 10 ⟨3⟩ sNoGil (by decide)
      (fun v : Int => v + 1) (fun v : Int => v)).2.2.1⟩

/-- C10: the non-consuming erasure `to_object` on a borrowed handle
performs exactly one increment and returns an erased handle wrapping
the same raw pointer, leaving every other count and the registry — and
the original handle with its own unit — untouched. -/
theorem to_object_spec (h : Py) (s : FFIState) :
    (Py.to_object h s).1 = PyObject.mk h.ptr ∧
    (Py.to_object h s).2.refcnt h.ptr = s.refcnt h.ptr + 1 ∧
    (∀ q, q ≠ h.ptr → (Py.to_object h s).2.refcnt q = s.refcnt q) ∧
    (Py.to_object h s).2.registry = s.registry := by
  refine ⟨rfl, ?_, ?_, rfl⟩
  · exact incref_refcnt_self h.ptr s
  · intro q hq
    exact incref_refcnt_other h.ptr q s hq

/-- Witness for `to_object_spec`: erasing a handle on pointer `3`
raises only that pointer's count. -/
theorem to_object_witness :
    (4 : Nat) ≠ (⟨3⟩ : Py).ptr ∧
    (Py.to_object ⟨3⟩ sNoGil).1 = PyObject.mk 3 ∧
    (Py.to_object ⟨3⟩ sNoGil).2.refcnt 4 = sNoGil.refcnt 4 :=
  ⟨by decide, (to_object_spec ⟨3⟩ sNoGil).1,
    (to_object_spec ⟨3⟩ sNoGil).2.2.1 4 (by decide)⟩
